import Mathlib

/-!
Verification of the kube-cache gatekeeper control loop (src/src/main.rs,
src/src/metrics.rs) against its natural-language specification.

The embedding models one reconciliation pass of the operator's event loop:
gate detection, dataset-annotation lookup, the cache-key computation
(Rust string `replace`), the hit/miss decision against the filesystem,
the fetcher-job spawn (pre-flight GET, create, poll-until-succeeded), the
simulation marker-file write, the gate-removal patch, and the metric
counters.  External effects (filesystem, cluster API, poll results) are
explicit inputs; fallible calls return `Except`.
-/

namespace KubeCache

/-- Errors of the cluster API as the reconciler can observe them. -/
inductive ApiError
  | alreadyExists
  | conflict
  | notFound
  | transient
  deriving DecidableEq

instance {α β : Type} [DecidableEq α] [DecidableEq β] : DecidableEq (Except α β) :=
  fun a b =>
    match a, b with
    | .error x, .error y =>
        if h : x = y then isTrue (by rw [h]) else isFalse (fun hc => by cases hc; exact h rfl)
    | .ok x, .ok y =>
        if h : x = y then isTrue (by rw [h]) else isFalse (fun hc => by cases hc; exact h rfl)
    | .error _, .ok _ => isFalse (fun hc => by cases hc)
    | .ok _, .error _ => isFalse (fun hc => by cases hc)

/-! ## Rust string replace and the cache-key mapping

`main.rs` line 107: `let filename = data_url.replace("s3://", "").replace("/", "-");`
`main.rs` line 166: `format!("fetcher-{}", data_url.replace("s3://","").replace("/", "-"))`

Rust `str::replace` substitutes every non-overlapping occurrence of the
pattern, scanning left to right.  The fuel argument (the string's length)
makes the recursion structural; one unit of fuel is spent per scan step and
each step consumes at least one character, so the fuel never runs out. -/

/-- Whether `pat` is an initial segment of `s`. -/
def leadsWith : List Char → List Char → Bool
  | [], _ => true
  | _ :: _, [] => false
  | p :: ps, c :: cs => p == c && leadsWith ps cs

/-- One left-to-right scan replacing every non-overlapping occurrence of
`pat` by `rep`, as Rust `str::replace` does for a nonempty pattern. -/
def replaceFuel (pat rep : List Char) : Nat → List Char → List Char
  | _, [] => []
  | 0, s => s
  | fuel + 1, c :: rest =>
    if !pat.isEmpty && leadsWith pat (c :: rest) then
      rep ++ replaceFuel pat rep fuel (List.drop pat.length (c :: rest))
    else
      c :: replaceFuel pat rep fuel rest

/-- Rust `s.replace(pat, rep)`. -/
def rustReplace (s pat rep : String) : String :=
  String.mk (replaceFuel pat.data rep.data s.data.length s.data)

/-- The cache key / filename computed from a DID:
`data_url.replace("s3://", "").replace("/", "-")` (main.rs line 107). -/
def filenameOf (dataUrl : String) : String :=
  rustReplace (rustReplace dataUrl "s3://" "") "/" "-"

/-- The cache path `/tmp/<filename>` (main.rs line 108). -/
def filePathOf (dataUrl : String) : String :=
  "/tmp/" ++ filenameOf dataUrl

/-- The fetch-job name `fetcher-<cache_key>` (main.rs line 166). -/
def jobNameOf (dataUrl : String) : String :=
  "fetcher-" ++ filenameOf dataUrl

/-! ## Data model: pods, jobs, system state -/

/-- A scheduling gate as it appears on a pod spec: a named blocker. -/
structure SchedulingGate where
  name : String
  deriving DecidableEq

/-- The parts of a pod spec the reconciler reads. -/
structure PodSpec where
  schedulingGates : Option (List SchedulingGate)
  nodeName : Option String
  deriving DecidableEq

/-- The parts of a pod object the reconciler reads: metadata name, uid,
annotations, and the spec. -/
structure Pod where
  name : Option String
  uid : Option String
  annotations : Option (List (String × String))
  spec : Option PodSpec
  deriving DecidableEq

/-- The reserved gate name (main.rs line 69). -/
def gateName : String := "kube-cache.openai.com/gate"

/-- The dataset annotation key (main.rs line 92). -/
def datasetKey : String := "x-openai/required-dataset"

/-- Rust `annotations.get(key)`: first binding of the key in the map. -/
def lookupAnn : List (String × String) → String → Option String
  | [], _ => none
  | (k, v) :: rest, key => if k == key then some v else lookupAnn rest key

/-- main.rs lines 82-85: the pod carries the reserved gate name among its
scheduling gates. -/
def hasGate (p : Pod) : Bool :=
  match p.spec with
  | none => false
  | some sp =>
    match sp.schedulingGates with
    | none => false
    | some gs => gs.any (fun g => g.name == gateName)

/-- main.rs lines 97-99: explicit node assignment, else the hardcoded
fallback node. -/
def nodeTargetOf (p : Pod) : String :=
  ((p.spec.bind (fun sp => sp.nodeName)).getD "kind-worker")

/-- The fetch job as created by `spawn_fetcher_job` (main.rs lines 171-199). -/
structure JobSpec where
  name : String
  ownerName : String
  ownerUid : String
  nodeName : String
  ttlSecondsAfterFinished : Nat
  restartPolicy : String
  deriving DecidableEq

/-- The job body built at main.rs lines 171-199 for a given DID, target node
and owning pod. -/
def mkJobSpec (dataUrl nodeTarget podName podUid : String) : JobSpec :=
  { name := jobNameOf dataUrl
    ownerName := podName
    ownerUid := podUid
    nodeName := nodeTarget
    ttlSecondsAfterFinished := 30
    restartPolicy := "Never" }

/-- Whether the cluster holds a job of the given name. -/
def clusterHas (cluster : List JobSpec) (n : String) : Bool :=
  cluster.any (fun j => j.name == n)

/-- How many jobs of the given name the cluster holds. -/
def countJobs (cluster : List JobSpec) (n : String) : Nat :=
  (cluster.filter (fun j => j.name == n)).length

/-- Whether a path exists on the node filesystem. -/
def fsHas (fs : List String) (path : String) : Bool :=
  fs.any (fun q => q == path)

/-- The monotonic counters and histogram observation count of
`MetricsState` (metrics.rs lines 29-104) that the reconciler touches. -/
structure Metrics where
  cacheHit : Nat
  cacheMiss : Nat
  prewarmSuccess : Nat
  warmupObs : Nat
  deriving DecidableEq

/-- The shared mutable world one reconciliation reads and writes: the node
filesystem, the cluster's job objects, and the metrics registry. -/
structure SysState where
  fs : List String
  cluster : List JobSpec
  metrics : Metrics
  deriving DecidableEq

/-- Observable actions of one reconciliation, in program order. -/
inductive Event
  | evCacheHit (path : String)
  | evCacheMiss (path : String)
  | evJobCreated (name : String)
  | evJobSucceeded (name : String)
  | evMarkerCreated (path : String)
  | evPatchIssued (podName : String)
  deriving DecidableEq

/-! ## The fetch-job orchestrator (`spawn_fetcher_job`, main.rs 164-219) -/

/-- The `status.succeeded` read from a job, `succeeded > 0` (main.rs 210-212). -/
def succeededPositive : Option Int → Bool
  | some s => decide (0 < s)
  | none => false

/-- A poll result that ends the wait loop: an erring get (propagated by
`?`) or a read showing `succeeded > 0`. -/
def isTerminal : Except ApiError (Option Int) → Bool
  | .error _ => true
  | .ok st => succeededPositive st

/-- What the wait loop returns for the poll result that ended it. -/
def outcomeOf : Except ApiError (Option Int) → Except ApiError Unit
  | .error e => .error e
  | .ok _ => .ok ()

/-- External inputs of one `spawn_fetcher_job` call: whether the pre-flight
GET fails spuriously (network error although the job exists), whether the
create call fails transiently, and the successive `status.succeeded` reads
of the wait loop. -/
structure FetchEnv where
  getSpuriousFail : Bool
  createTransient : Bool
  poll : Nat → Except ApiError (Option Int)

/-- The wait loop of main.rs lines 208-216: re-read the job until a read
errors (propagated) or reports `succeeded > 0`.  The loop has no timeout;
`none` means the fuel ran out with the loop still running. -/
def pollLoop (poll : Nat → Except ApiError (Option Int)) : Nat → Nat → Option (Except ApiError Unit)
  | 0, _ => none
  | fuel + 1, i =>
    match poll i with
    | .error e => some (.error e)
    | .ok st => if succeededPositive st then some (.ok ()) else pollLoop poll fuel (i + 1)

/-- Tail of `spawn_fetcher_job` after the create decision: wait for the job,
recording a success event when the wait loop sees `succeeded > 0`. -/
def finishWait (env : FetchEnv) (fuel : Nat) (jn : String) (cluster : List JobSpec)
    (tr : List Event) : Option (Except ApiError Unit × List JobSpec × List Event) :=
  match pollLoop env.poll fuel 0 with
  | none => none
  | some (.error e) => some (.error e, cluster, tr)
  | some (.ok _) => some (.ok (), cluster, tr ++ [Event.evJobSucceeded jn])

/-- The function `spawn_fetcher_job` (main.rs lines 164-219).  The pre-flight GET
(line 201) errs when the job is absent or the network fails; in that case
the create runs: the cluster rejects a duplicate name with AlreadyExists
(propagated by `?`), a transient failure propagates likewise, and otherwise
the job is added.  Then the wait loop runs.  `none` = still polling after
`fuel` reads. -/
def spawnFetcherJob (env : FetchEnv) (fuel : Nat) (cluster : List JobSpec)
    (dataUrl nodeTarget podName podUid : String) :
    Option (Except ApiError Unit × List JobSpec × List Event) :=
  let jn := jobNameOf dataUrl
  if !clusterHas cluster jn || env.getSpuriousFail then
    if clusterHas cluster jn then
      some (.error .alreadyExists, cluster, [])
    else if env.createTransient then
      some (.error .transient, cluster, [])
    else
      finishWait env fuel jn (mkJobSpec dataUrl nodeTarget podName podUid :: cluster)
        [Event.evJobCreated jn]
  else
    finishWait env fuel jn cluster []

/-! ## One reconciliation pass (main.rs lines 79-154) -/

/-- External inputs of one reconciliation: the fetch inputs, the poll fuel,
whether `std::fs::File::create` of the marker succeeds (its result is
inspected only for logging, main.rs line 132), and the patch call's result. -/
structure ReconcileEnv where
  fetch : FetchEnv
  fetchFuel : Nat
  fileCreateOk : Bool
  patchResult : Except ApiError Unit

/-- The gate-removal patch call (main.rs lines 141-148): a merge patch
setting `spec.schedulingGates` to the empty list; the call is recorded as
issued, and its result is returned (an error propagates via `?`). -/
def issuePatch (env : ReconcileEnv) (podName : String) (st : SysState) (tr : List Event) :
    Option (Except ApiError Unit × SysState × List Event) :=
  some (env.patchResult, st, tr ++ [Event.evPatchIssued podName])

/-- One reconciliation of an Added/Modified pod (main.rs lines 79-154):
gate check, annotation lookup, hit/miss against the filesystem, on miss the
fetch job (awaited inline) then the marker write, and finally the patch.
`none` = the pass is stuck in the wait loop (fuel exhausted). -/
def reconcile (env : ReconcileEnv) (p : Pod) (st : SysState) :
    Option (Except ApiError Unit × SysState × List Event) :=
  let podName := p.name.getD ""
  if hasGate p then
    match p.annotations with
    | none => some (.ok (), st, [])
    | some anns =>
      match lookupAnn anns datasetKey with
      | none => some (.ok (), st, [])
      | some dataUrl =>
        let nodeTarget := nodeTargetOf p
        let podUid := p.uid.getD ""
        let path := filePathOf dataUrl
        if fsHas st.fs path then
          let st1 := { st with metrics := { st.metrics with cacheHit := st.metrics.cacheHit + 1 } }
          issuePatch env podName st1 [Event.evCacheHit path]
        else
          let st1 := { st with metrics := { st.metrics with cacheMiss := st.metrics.cacheMiss + 1 } }
          match spawnFetcherJob env.fetch env.fetchFuel st1.cluster dataUrl nodeTarget podName podUid with
          | none => none
          | some (.error e, cl2, tr) =>
            some (.error e, { st1 with cluster := cl2 }, Event.evCacheMiss path :: tr)
          | some (.ok _, cl2, tr) =>
            let st2 := { st1 with
              cluster := cl2
              metrics := { st1.metrics with warmupObs := st1.metrics.warmupObs + 1 } }
            if env.fileCreateOk then
              issuePatch env podName { st2 with fs := path :: st2.fs }
                (Event.evCacheMiss path :: (tr ++ [Event.evMarkerCreated path]))
            else
              issuePatch env podName st2 (Event.evCacheMiss path :: tr)
  else
    some (.ok (), st, [])

/-! ## The event loop (main.rs lines 77-159) -/

/-- One item of the watch stream as the `match` at main.rs lines 78-158
distinguishes them: Ok(Added), Ok(Modified), Ok(Error) (logged), and the
wildcard arm (Ok(Deleted), bookmarks, stream-level errors -- all ignored). -/
inductive StreamItem
  | okAdded (p : Pod)
  | okModified (p : Pod)
  | okWatchErr
  | okOther

/-- The `while let` loop of main.rs lines 77-159: Added/Modified pods are
reconciled inline; a reconciliation error propagates out of `main` via `?`
(the process aborts); Error events are only logged; everything else is
ignored.  `some (.ok st)` = clean end of stream, `some (.error e)` = the
process aborted with `e`, `none` = stuck in a wait loop. -/
def mainLoop : List (StreamItem × ReconcileEnv) → SysState → Option (Except ApiError SysState)
  | [], st => some (.ok st)
  | (item, env) :: rest, st =>
    match item with
    | .okAdded p =>
      match reconcile env p st with
      | none => none
      | some (.error e, _, _) => some (.error e)
      | some (.ok _, st2, _) => mainLoop rest st2
    | .okModified p =>
      match reconcile env p st with
      | none => none
      | some (.error e, _, _) => some (.error e)
      | some (.ok _, st2, _) => mainLoop rest st2
    | .okWatchErr => mainLoop rest st
    | .okOther => mainLoop rest st

/-! ## Small-step view of in-flight fetches

The loop awaits each `spawn_fetcher_job` inline before reading the next
stream item, so a fetch (job creation plus poll) can only begin when no
other fetch is running.  The configurations below over-approximate the
loop's interleavings: a `skip` step consumes an item whose reconciliation
starts no fetch, `beginFetch` starts the fetch of a gated, annotated,
cache-missing pod and is only enabled with no fetch in flight (the await),
`pollStep` is one sleep-and-re-read, and `finishFetch` completes the pass.
State updates on `skip`/`finishFetch` are left arbitrary, which only adds
behaviours and cannot add in-flight fetches. -/

/-- A configuration of the control loop: the cache keys with a fetch in
flight, the unread stream items, and the shared state. -/
structure LoopConfig where
  inflight : List String
  pending : List (StreamItem × ReconcileEnv)
  st : SysState

/-- One step of the control loop. -/
inductive LoopStep : LoopConfig → LoopConfig → Prop
  | skip (infl : List String) (it : StreamItem × ReconcileEnv)
      (rest : List (StreamItem × ReconcileEnv)) (st st2 : SysState) :
      LoopStep ⟨infl, it :: rest, st⟩ ⟨infl, rest, st2⟩
  | beginFetch (p : Pod) (env : ReconcileEnv) (rest : List (StreamItem × ReconcileEnv))
      (st : SysState) (anns : List (String × String)) (d : String)
      (hg : hasGate p = true) (ha : p.annotations = some anns)
      (hd : lookupAnn anns datasetKey = some d)
      (hmiss : fsHas st.fs (filePathOf d) = false) :
      LoopStep ⟨[], (StreamItem.okModified p, env) :: rest, st⟩
               ⟨[filenameOf d], (StreamItem.okModified p, env) :: rest, st⟩
  | pollStep (k : String) (rest : List (StreamItem × ReconcileEnv)) (st : SysState) :
      LoopStep ⟨[k], rest, st⟩ ⟨[k], rest, st⟩
  | finishFetch (k : String) (it : StreamItem × ReconcileEnv)
      (rest : List (StreamItem × ReconcileEnv)) (st st2 : SysState) :
      LoopStep ⟨[k], it :: rest, st⟩ ⟨[], rest, st2⟩

/-- Reachability of the control loop. -/
def Reaches (a b : LoopConfig) : Prop := Relation.ReflTransGen LoopStep a b

/-! ## Helper lemmas -/

lemma pollLoop_succ_eq (poll : Nat → Except ApiError (Option Int)) (fuel i : Nat) :
    pollLoop poll (fuel + 1) i =
      if isTerminal (poll i) then some (outcomeOf (poll i)) else pollLoop poll fuel (i + 1) := by
  cases h : poll i with
  | error e => simp [pollLoop, h, isTerminal, outcomeOf]
  | ok st =>
    cases hs : succeededPositive st <;>
      simp [pollLoop, h, isTerminal, outcomeOf, hs]

lemma pollLoop_none_iff (poll : Nat → Except ApiError (Option Int)) :
    ∀ (fuel i : Nat),
      pollLoop poll fuel i = none ↔ ∀ j, j < fuel → isTerminal (poll (i + j)) = false := by
  intro fuel
  induction fuel with
  | zero =>
    intro i
    constructor
    · intro _ j hj
      exact absurd hj (Nat.not_lt_zero j)
    · intro _
      rfl
  | succ f ih =>
    intro i
    rw [pollLoop_succ_eq]
    by_cases ht : isTerminal (poll i) = true
    · rw [if_pos ht]
      constructor
      · intro hn
        exact absurd hn (by simp)
      · intro hall
        have h0 := hall 0 (Nat.succ_pos f)
        rw [Nat.add_zero] at h0
        rw [ht] at h0
        exact absurd h0 (by simp)
    · have ht2 : isTerminal (poll i) = false := by
        revert ht
        cases isTerminal (poll i) <;> simp
      rw [if_neg ht, ih (i + 1)]
      constructor
      · intro hall j hj
        cases j with
        | zero =>
          rw [Nat.add_zero]
          exact ht2
        | succ m =>
          have hm := hall m (by omega)
          rw [show i + 1 + m = i + (m + 1) by omega] at hm
          exact hm
      · intro hall j hj
        have hm := hall (j + 1) (by omega)
        rw [show i + 1 + j = i + (j + 1) by omega]
        exact hm

lemma pollLoop_first_terminal (poll : Nat → Except ApiError (Option Int)) :
    ∀ (j fuel i : Nat), j < fuel →
      (∀ m, m < j → isTerminal (poll (i + m)) = false) →
      isTerminal (poll (i + j)) = true →
      pollLoop poll fuel i = some (outcomeOf (poll (i + j))) := by
  intro j
  induction j with
  | zero =>
    intro fuel i hj _ hterm
    rw [Nat.add_zero] at hterm
    cases fuel with
    | zero => omega
    | succ f =>
      rw [pollLoop_succ_eq, if_pos hterm, Nat.add_zero]
  | succ m ih =>
    intro fuel i hj hbefore hterm
    cases fuel with
    | zero => omega
    | succ f =>
      have h0 : isTerminal (poll i) = false := by
        have := hbefore 0 (by omega)
        rwa [Nat.add_zero] at this
      rw [pollLoop_succ_eq, if_neg (by rw [h0]; simp)]
      have hb2 : ∀ k, k < m → isTerminal (poll (i + 1 + k)) = false := by
        intro k hk
        have := hbefore (k + 1) (by omega)
        rwa [show i + (k + 1) = i + 1 + k by omega] at this
      have ht2 : isTerminal (poll (i + 1 + m)) = true := by
        rwa [show i + 1 + m = i + (m + 1) by omega]
      have := ih f (i + 1) (by omega) hb2 ht2
      rwa [show i + 1 + m = i + (m + 1) by omega] at this

lemma finishWait_shape (env : FetchEnv) (fuel : Nat) (jn : String) (cl : List JobSpec)
    (tr0 : List Event) (r : Except ApiError Unit) (cl2 : List JobSpec) (tr2 : List Event)
    (h : finishWait env fuel jn cl tr0 = some (r, cl2, tr2)) :
    cl2 = cl ∧ ((r = .ok () ∧ tr2 = tr0 ++ [Event.evJobSucceeded jn]) ∨
                (∃ e, r = .error e ∧ tr2 = tr0)) := by
  unfold finishWait at h
  split at h
  · exact absurd h (by simp)
  case h_2 e heq =>
    simp only [Option.some.injEq, Prod.mk.injEq] at h
    obtain ⟨h1, h2, h3⟩ := h
    exact ⟨h2.symm, Or.inr ⟨e, h1.symm, h3.symm⟩⟩
  case h_3 u heq =>
    simp only [Option.some.injEq, Prod.mk.injEq] at h
    obtain ⟨h1, h2, h3⟩ := h
    exact ⟨h2.symm, Or.inl ⟨h1.symm, h3.symm⟩⟩

lemma spawn_shape (env : FetchEnv) (fuel : Nat) (cluster : List JobSpec)
    (dataUrl nodeTarget podName podUid : String)
    (r : Except ApiError Unit) (cl2 : List JobSpec) (tr : List Event)
    (h : spawnFetcherJob env fuel cluster dataUrl nodeTarget podName podUid = some (r, cl2, tr)) :
    (cl2 = cluster ∨ (clusterHas cluster (jobNameOf dataUrl) = false ∧
        cl2 = mkJobSpec dataUrl nodeTarget podName podUid :: cluster))
    ∧ (∀ n, Event.evJobCreated n ∈ tr → n = jobNameOf dataUrl)
    ∧ (∀ n, Event.evPatchIssued n ∉ tr)
    ∧ (r = Except.ok () → Event.evJobSucceeded (jobNameOf dataUrl) ∈ tr) := by
  have h2 : (if !clusterHas cluster (jobNameOf dataUrl) || env.getSpuriousFail then
      if clusterHas cluster (jobNameOf dataUrl) then
        some ((Except.error ApiError.alreadyExists : Except ApiError Unit), cluster, ([] : List Event))
      else if env.createTransient then
        some ((Except.error ApiError.transient : Except ApiError Unit), cluster, ([] : List Event))
      else
        finishWait env fuel (jobNameOf dataUrl)
          (mkJobSpec dataUrl nodeTarget podName podUid :: cluster)
          [Event.evJobCreated (jobNameOf dataUrl)]
    else finishWait env fuel (jobNameOf dataUrl) cluster []) = some (r, cl2, tr) := h
  clear h
  rename' h2 => h
  by_cases hc : clusterHas cluster (jobNameOf dataUrl) = true
  · by_cases hs : env.getSpuriousFail = true
    · simp only [hc, hs] at h
      simp at h
      obtain ⟨h1, h2, h3⟩ := h
      subst h1
      subst h2
      subst h3
      exact ⟨Or.inl rfl, by simp, by simp, by simp⟩
    · have hs2 : env.getSpuriousFail = false := by
        revert hs
        cases env.getSpuriousFail <;> simp
      simp only [hc, hs2] at h
      simp only [Bool.not_true, Bool.false_or, Bool.false_eq_true, if_false] at h
      obtain ⟨hcl, hrest⟩ := finishWait_shape env fuel _ cluster [] r cl2 tr h
      refine ⟨Or.inl hcl, ?_, ?_, ?_⟩
      · intro n hn
        rcases hrest with ⟨_, htr⟩ | ⟨e, _, htr⟩ <;> rw [htr] at hn <;>
          exact absurd hn (by simp)
      · intro n hn
        rcases hrest with ⟨_, htr⟩ | ⟨e, _, htr⟩ <;> rw [htr] at hn <;>
          exact absurd hn (by simp)
      · intro hok
        rcases hrest with ⟨_, htr⟩ | ⟨e, he, _⟩
        · rw [htr]; simp
        · rw [he] at hok; exact absurd hok (by simp)
  · have hc2 : clusterHas cluster (jobNameOf dataUrl) = false := by
      revert hc
      cases clusterHas cluster (jobNameOf dataUrl) <;> simp
    simp only [hc2] at h
    simp only [Bool.not_false, Bool.true_or, if_true, Bool.false_eq_true, if_false] at h
    by_cases ht : env.createTransient = true
    · simp only [ht, if_true] at h
      simp at h
      obtain ⟨h1, h2, h3⟩ := h
      subst h1
      subst h2
      subst h3
      exact ⟨Or.inl rfl, by simp, by simp, by simp⟩
    · simp only [ht, if_false] at h
      obtain ⟨hcl, hrest⟩ := finishWait_shape env fuel _ _ _ r cl2 tr h
      refine ⟨Or.inr ⟨hc2, hcl⟩, ?_, ?_, ?_⟩
      · intro n hn
        rcases hrest with ⟨_, htr⟩ | ⟨e, _, htr⟩ <;> rw [htr] at hn <;> simp at hn <;>
          exact hn
      · intro n hn
        rcases hrest with ⟨_, htr⟩ | ⟨e, _, htr⟩ <;> rw [htr] at hn <;> simp at hn
      · intro hok
        rcases hrest with ⟨_, htr⟩ | ⟨e, he, _⟩
        · rw [htr]; simp
        · rw [he] at hok; exact absurd hok (by simp)

lemma reconcile_hit_eq (env : ReconcileEnv) (p : Pod) (st : SysState)
    (anns : List (String × String)) (d : String)
    (hg : hasGate p = true) (ha : p.annotations = some anns)
    (hd : lookupAnn anns datasetKey = some d)
    (hfs : fsHas st.fs (filePathOf d) = true) :
    reconcile env p st =
      some (env.patchResult,
        { st with metrics := { st.metrics with cacheHit := st.metrics.cacheHit + 1 } },
        [Event.evCacheHit (filePathOf d), Event.evPatchIssued (p.name.getD "")]) := by
  simp [reconcile, hg, ha, hd, hfs, issuePatch]

lemma reconcile_cold_eq (env : ReconcileEnv) (p : Pod) (st : SysState)
    (anns : List (String × String)) (d : String)
    (hg : hasGate p = true) (ha : p.annotations = some anns)
    (hd : lookupAnn anns datasetKey = some d)
    (hfs : fsHas st.fs (filePathOf d) = false)
    (hcl : clusterHas st.cluster (jobNameOf d) = false)
    (hct : env.fetch.createTransient = false)
    (hpoll : pollLoop env.fetch.poll env.fetchFuel 0 = some (.ok ()))
    (hfc : env.fileCreateOk = true) :
    reconcile env p st =
      some (env.patchResult,
        { fs := filePathOf d :: st.fs,
          cluster := mkJobSpec d (nodeTargetOf p) (p.name.getD "") (p.uid.getD "") :: st.cluster,
          metrics := { st.metrics with
            cacheMiss := st.metrics.cacheMiss + 1,
            warmupObs := st.metrics.warmupObs + 1 } },
        [Event.evCacheMiss (filePathOf d), Event.evJobCreated (jobNameOf d),
         Event.evJobSucceeded (jobNameOf d), Event.evMarkerCreated (filePathOf d),
         Event.evPatchIssued (p.name.getD "")]) := by
  simp [reconcile, hg, ha, hd, hfs, spawnFetcherJob, hcl, hct, finishWait, hpoll, hfc,
    issuePatch]

lemma loopStep_inflight_le (a b : LoopConfig) (h : LoopStep a b)
    (hle : a.inflight.length ≤ 1) : b.inflight.length ≤ 1 := by
  cases h with
  | skip infl it rest st st2 => exact hle
  | beginFetch p env rest st anns d hg ha hd hmiss => simp
  | pollStep k rest st => exact hle
  | finishFetch k it rest st st2 => simp

lemma clusterHas_false_countJobs (cl : List JobSpec) (n : String)
    (h : clusterHas cl n = false) : countJobs cl n = 0 := by
  induction cl with
  | nil => rfl
  | cons j rest ih =>
    simp only [clusterHas, List.any_cons, Bool.or_eq_false_iff] at h
    obtain ⟨h1, h2⟩ := h
    simp only [countJobs, List.filter]
    rw [h1]
    exact ih h2

lemma countJobs_cons_self (cl : List JobSpec) (d nodeTarget podName podUid : String) :
    countJobs (mkJobSpec d nodeTarget podName podUid :: cl) (jobNameOf d) =
      countJobs cl (jobNameOf d) + 1 := by
  simp [countJobs, mkJobSpec, List.filter]

lemma clusterHas_cons_self (cl : List JobSpec) (d nodeTarget podName podUid : String) :
    clusterHas (mkJobSpec d nodeTarget podName podUid :: cl) (jobNameOf d) = true := by
  simp [clusterHas, mkJobSpec]

/-! ## Concrete scenarios -/

/-- A job-status stream that reports success at once. -/
def mPoll1 : Nat → Except ApiError (Option Int) := fun _ => Except.ok (some 1)

/-- A job-status stream that reports a running job forever. -/
def alwaysRunning : Nat → Except ApiError (Option Int) := fun _ => Except.ok (some 0)

/-- Fetch inputs with no API failures and an immediately succeeding job. -/
def fenvOk : FetchEnv :=
  { getSpuriousFail := false, createTransient := false, poll := mPoll1 }

/-- Fetch inputs where the pre-flight GET fails although the job exists. -/
def fenvSpurious : FetchEnv :=
  { getSpuriousFail := true, createTransient := false, poll := mPoll1 }

/-- All counters at zero. -/
def metrics0 : Metrics :=
  { cacheHit := 0, cacheMiss := 0, prewarmSuccess := 0, warmupObs := 0 }

/-- Reconciliation inputs where every external call succeeds. -/
def envCold : ReconcileEnv :=
  { fetch := fenvOk, fetchFuel := 3, fileCreateOk := true, patchResult := .ok () }

/-- Reconciliation inputs where the marker-file write fails. -/
def envNoMarker : ReconcileEnv :=
  { fetch := fenvOk, fetchFuel := 3, fileCreateOk := false, patchResult := .ok () }

/-- Reconciliation inputs where the patch returns a version conflict. -/
def envConflict : ReconcileEnv :=
  { fetch := fenvOk, fetchFuel := 3, fileCreateOk := true, patchResult := .error .conflict }

/-- The gated pod of the end-to-end scenarios: dataset `s3://models/m1`,
no node assigned. -/
def podW1 : Pod :=
  { name := some "w1", uid := some "uid-1"
    annotations := some [(datasetKey, "s3://models/m1")]
    spec := some { schedulingGates := some [{ name := gateName }], nodeName := none } }

/-- A gated pod whose dataset annotation value is the empty string. -/
def podEmptyDid : Pod :=
  { name := some "w-empty", uid := some "uid-e"
    annotations := some [(datasetKey, "")]
    spec := some { schedulingGates := some [{ name := gateName }], nodeName := none } }

/-- A gated pod with no annotations at all. -/
def podNoAnn : Pod :=
  { name := some "w-none", uid := some "uid-n"
    annotations := none
    spec := some { schedulingGates := some [{ name := gateName }], nodeName := none } }

/-- A gated pod for the marker-write-failure run, dataset `s3://c1/data`. -/
def podC1 : Pod :=
  { name := some "wc1", uid := some "uid-c1"
    annotations := some [(datasetKey, "s3://c1/data")]
    spec := some { schedulingGates := some [{ name := gateName }], nodeName := none } }

/-- A gated pod for the conflicting-patch run, dataset `s3://m/x`. -/
def podC5 : Pod :=
  { name := some "w5", uid := some "uid-5"
    annotations := some [(datasetKey, "s3://m/x")]
    spec := some { schedulingGates := some [{ name := gateName }], nodeName := none } }

/-- A gated pod for the marker-persistence run, dataset `s3://c10/d`. -/
def podC10 : Pod :=
  { name := some "w10", uid := some "uid-10"
    annotations := some [(datasetKey, "s3://c10/d")]
    spec := some { schedulingGates := some [{ name := gateName }], nodeName := none } }

/-- Empty filesystem, empty cluster, zeroed counters. -/
def stEmpty : SysState := { fs := [], cluster := [], metrics := metrics0 }

/-- The warm-hit state: the dataset file of `podW1` already on disk. -/
def stWarm : SysState := { fs := ["/tmp/models-m1"], cluster := [], metrics := metrics0 }

/-- A filesystem on which the directory path `/tmp/` itself exists. -/
def stTmp : SysState := { fs := ["/tmp/"], cluster := [], metrics := metrics0 }

/-- The warm-hit state for `podC5`. -/
def stC5 : SysState := { fs := ["/tmp/m-x"], cluster := [], metrics := metrics0 }

/-- An idle initial configuration of the control loop. -/
def cfg0 : LoopConfig := { inflight := [], pending := [], st := stEmpty }

/-- The wait loop never returns on this status stream, whatever the fuel. -/
def runsForever (poll : Nat → Except ApiError (Option Int)) : Prop :=
  ∀ fuel, pollLoop poll fuel 0 = none

/-! ## Claims -/

/-- Claim C2, counterexample: the DID-to-cache-key mapping is not
injective.  The distinct DIDs `s3://a/b` and `s3://a-b` both map to the
cache key `a-b`, because the mapping folds `/` into `-`. -/
theorem c2_filename_collision :
    filenameOf "s3://a/b" = filenameOf "s3://a-b" ∧ "s3://a/b" ≠ "s3://a-b" := by
  constructor
  · decide
  · decide

/-- Claim C2 as amended: the DID-to-cache-key mapping (strip `s3://`,
fold `/` into `-`) is deterministic -- byte-equal DIDs give equal keys --
but it is not injective: distinct DIDs can map to the same key. -/
theorem c2_filename_deterministic_not_injective :
    (∀ d1 d2 : String, d1 = d2 → filenameOf d1 = filenameOf d2)
    ∧ (∃ d1 d2 : String, d1 ≠ d2 ∧ filenameOf d1 = filenameOf d2) := by
  constructor
  · intro d1 d2 h
    rw [h]
  · exact ⟨"s3://a/b", "s3://a-b", by decide, by decide⟩

/-- Claim C3 as amended: a workload with no annotation map, or whose
annotations lack the dataset key, is left untouched by the reconciler:
no patch, no job, no state change, no events.  (An annotation that is
present with an empty-string DID is NOT special-cased; see the
counterexample.) -/
theorem c3_no_dataset_no_action (env : ReconcileEnv) (p : Pod) (st : SysState)
    (h : p.annotations = none ∨
      ∃ anns, p.annotations = some anns ∧ lookupAnn anns datasetKey = none) :
    reconcile env p st = some (.ok (), st, []) := by
  by_cases hg : hasGate p = true
  · rcases h with h | ⟨anns, ha, hd⟩
    · simp [reconcile, hg, h]
    · simp [reconcile, hg, ha, hd]
  · have hg2 : hasGate p = false := by
      revert hg
      cases hasGate p <;> simp
    simp [reconcile, hg2]

/-- Witness for C3's amended theorem at a concrete gated pod with no
annotations. -/
theorem c3_no_dataset_no_action_witness :
    reconcile envCold podNoAnn stEmpty = some (.ok (), stEmpty, []) :=
  c3_no_dataset_no_action envCold podNoAnn stEmpty (Or.inl rfl)

/-- Claim C3, counterexample: a gated pod whose dataset annotation is the
empty string is NOT classified NotMine.  The reconciler proceeds with the
empty DID (cache path `/tmp/`), takes the hit path on a filesystem where
that path exists, and issues the gate-removal patch. -/
theorem c3_empty_did_patches :
    (reconcile envCold podEmptyDid stTmp).map (fun r => r.2.2) =
      some [Event.evCacheHit "/tmp/", Event.evPatchIssued "w-empty"] := by
  decide

/-- Claim C4, confirmed: in every configuration the control loop can reach
from an idle start, at most one fetch is in flight for any single cache
key.  The loop awaits each `spawn_fetcher_job` inline before reading the
next stream item, so `beginFetch` is only enabled with no fetch in
flight. -/
theorem c4_single_inflight_per_key (c0 c : LoopConfig) (k : String)
    (h0 : c0.inflight = []) (h : Reaches c0 c) : c.inflight.count k ≤ 1 := by
  have h2 : Relation.ReflTransGen LoopStep c0 c := h
  have hlen : c.inflight.length ≤ 1 := by
    induction h2 with
    | refl => simp [h0]
    | tail hsteps hstep ih => exact loopStep_inflight_le _ _ hstep (ih hsteps)
  exact le_trans (List.count_le_length k c.inflight) hlen

/-- Witness for C4 at the idle initial configuration. -/
theorem c4_single_inflight_per_key_witness : cfg0.inflight.count "models-m1" ≤ 1 :=
  c4_single_inflight_per_key cfg0 cfg0 "models-m1" rfl Relation.ReflTransGen.refl

/-- Claim C5 as amended: only watch-stream Error events and ignored event
kinds are absorbed by the loop; an error arising inside one
reconciliation (patch failure including version conflict, job-create or
job-get failure) propagates out of the event loop via `?` and aborts the
process. -/
theorem c5_reconcile_errors_abort :
    (∀ (env : ReconcileEnv) rest st,
        mainLoop ((StreamItem.okWatchErr, env) :: rest) st = mainLoop rest st)
    ∧ (∀ (env : ReconcileEnv) rest st,
        mainLoop ((StreamItem.okOther, env) :: rest) st = mainLoop rest st)
    ∧ (∀ (p : Pod) (env : ReconcileEnv) rest st e st2 tr,
        reconcile env p st = some (.error e, st2, tr) →
        mainLoop ((StreamItem.okModified p, env) :: rest) st = some (.error e)) := by
  refine ⟨fun env rest st => rfl, fun env rest st => rfl, ?_⟩
  intro p env rest st e st2 tr h
  simp [mainLoop, h]

/-- Claim C5, counterexample: a version conflict on the patch is not
dropped; it aborts the control loop.  One Modified event for a warm-hit
pod whose patch returns a conflict makes the loop return that error (the
process exits) instead of continuing to the end of the stream. -/
theorem c5_conflict_aborts :
    mainLoop [(StreamItem.okModified podC5, envConflict)] stC5 =
      some (.error .conflict) := by
  decide

/-- Claim C7 as amended: the wait loop returns success as soon as a poll
reports `succeeded ≥ 1` and propagates the error of a failing status
read, but it has no poll timeout and no backoff-limit check: within any
fuel bound it returns nothing unless some read in that bound is terminal
(erring or succeeded), so a job that never succeeds is polled forever. -/
theorem c7_poll_terminal_characterization (poll : Nat → Except ApiError (Option Int))
    (fuel : Nat) :
    (pollLoop poll fuel 0 = none ↔ ∀ j, j < fuel → isTerminal (poll j) = false)
    ∧ (∀ j, j < fuel → (∀ m, m < j → isTerminal (poll m) = false) →
        isTerminal (poll j) = true →
        pollLoop poll fuel 0 = some (outcomeOf (poll j))) := by
  constructor
  · have h := pollLoop_none_iff poll fuel 0
    simpa using h
  · intro j hj hb ht
    have h := pollLoop_first_terminal poll j fuel 0 hj (by simpa using hb) (by simpa using ht)
    simpa using h

/-- Claim C7, counterexample: the polling does not terminate on every
fetch.  On a job that forever reports `succeeded = 0` with no read error,
the wait loop runs forever (it returns nothing for every fuel bound):
there is no bounded poll timeout and no backoff-limit detection in the
loop. -/
theorem c7_poll_diverges : runsForever alwaysRunning := by
  intro fuel
  rw [pollLoop_none_iff]
  intro j hj
  rfl

/-- Claim C9, confirmed: a warm-hit reconciliation (gated pod whose
dataset file already exists at the cache path) creates no job (the
cluster is unchanged), issues the patch immediately, increments
`cache_hit_total` by one, and records no warmup-latency observation. -/
theorem c9_warm_hit (env : ReconcileEnv) (p : Pod) (st : SysState)
    (anns : List (String × String)) (d : String)
    (hg : hasGate p = true) (ha : p.annotations = some anns)
    (hd : lookupAnn anns datasetKey = some d)
    (hfs : fsHas st.fs (filePathOf d) = true) :
    reconcile env p st =
      some (env.patchResult,
        { st with metrics := { st.metrics with cacheHit := st.metrics.cacheHit + 1 } },
        [Event.evCacheHit (filePathOf d), Event.evPatchIssued (p.name.getD "")]) :=
  reconcile_hit_eq env p st anns d hg ha hd hfs

/-- Witness for C9 at the concrete warm-hit scenario of the spec. -/
theorem c9_warm_hit_witness :
    reconcile envCold podW1 stWarm =
      some (envCold.patchResult,
        { stWarm with metrics :=
            { stWarm.metrics with cacheHit := stWarm.metrics.cacheHit + 1 } },
        [Event.evCacheHit (filePathOf "s3://models/m1"),
         Event.evPatchIssued (podW1.name.getD "")]) :=
  c9_warm_hit envCold podW1 stWarm [(datasetKey, "s3://models/m1")] "s3://models/m1"
    (by decide) rfl rfl (by decide)

/-- The state a successful cache-miss reconciliation leaves behind: the
marker on disk, the fetch job in the cluster, miss and warmup counters
bumped. -/
def coldResultState (p : Pod) (st : SysState) (d : String) : SysState :=
  { fs := filePathOf d :: st.fs,
    cluster := mkJobSpec d (nodeTargetOf p) (p.name.getD "") (p.uid.getD "") :: st.cluster,
    metrics := { st.metrics with
      cacheMiss := st.metrics.cacheMiss + 1,
      warmupObs := st.metrics.warmupObs + 1 } }

/-- The state after the warm-hit reconciliation of `podW1` from `stWarm`. -/
def stWarmAfter : SysState :=
  { fs := ["/tmp/models-m1"], cluster := [],
    metrics := { cacheHit := 1, cacheMiss := 0, prewarmSuccess := 0, warmupObs := 0 } }

/-- A cluster already holding the fetch job for `s3://a`. -/
def clusterC6 : List JobSpec := [mkJobSpec "s3://a" "n1" "p1" "u1"]

/-- The cluster after the first ensure of `s3://a/b` from an empty cluster. -/
def clusterC6b : List JobSpec := [mkJobSpec "s3://a/b" "n" "w" "u"]

/-- Claim C1 as amended: when a reconciliation of an annotated workload
issues the gate-removal patch, a cache hit or a successful fetch job
preceded it (fetch failure never leads to the patch), and a Present
entry -- the file at the cache path -- exists at patch time unless the
marker-file write after the successful fetch failed (its error is
ignored by the code). -/
theorem c1_patch_only_after_hit_or_success (env : ReconcileEnv) (p : Pod) (st : SysState)
    (anns : List (String × String)) (d : String)
    (res : Except ApiError Unit) (st2 : SysState) (tr : List Event)
    (ha : p.annotations = some anns) (hd : lookupAnn anns datasetKey = some d)
    (hrec : reconcile env p st = some (res, st2, tr))
    (hpatch : Event.evPatchIssued (p.name.getD "") ∈ tr) :
    (Event.evCacheHit (filePathOf d) ∈ tr ∨ Event.evJobSucceeded (jobNameOf d) ∈ tr)
    ∧ (fsHas st2.fs (filePathOf d) = true ∨ env.fileCreateOk = false) := by
  by_cases hg : hasGate p = true
  case neg =>
    have hg2 : hasGate p = false := by
      revert hg
      cases hasGate p <;> simp
    have heq : reconcile env p st = some (.ok (), st, []) := by
      simp [reconcile, hg2]
    rw [heq] at hrec
    simp only [Option.some.injEq, Prod.mk.injEq] at hrec
    obtain ⟨_, _, htr⟩ := hrec
    rw [← htr] at hpatch
    exact absurd hpatch (by simp)
  case pos =>
    by_cases hfs : fsHas st.fs (filePathOf d) = true
    · rw [reconcile_hit_eq env p st anns d hg ha hd hfs] at hrec
      simp only [Option.some.injEq, Prod.mk.injEq] at hrec
      obtain ⟨h1, h2, h3⟩ := hrec
      constructor
      · left
        rw [← h3]
        simp
      · left
        rw [← h2]
        simpa using hfs
    · have hfs2 : fsHas st.fs (filePathOf d) = false := by
        revert hfs
        cases fsHas st.fs (filePathOf d) <;> simp
      cases hsp : spawnFetcherJob env.fetch env.fetchFuel st.cluster d (nodeTargetOf p)
          (p.name.getD "") (p.uid.getD "") with
      | none =>
        have heq : reconcile env p st = none := by
          simp [reconcile, hg, ha, hd, hfs2, hsp]
        rw [heq] at hrec
        exact absurd hrec (by simp)
      | some trip =>
        obtain ⟨r, cl2, trs⟩ := trip
        obtain ⟨hcl, hcreated, hnopatch, hsucc⟩ :=
          spawn_shape env.fetch env.fetchFuel st.cluster d (nodeTargetOf p)
            (p.name.getD "") (p.uid.getD "") r cl2 trs hsp
        cases r with
        | error e =>
          have heq : reconcile env p st =
              some (.error e,
                { fs := st.fs, cluster := cl2,
                  metrics := { st.metrics with cacheMiss := st.metrics.cacheMiss + 1 } },
                Event.evCacheMiss (filePathOf d) :: trs) := by
            simp [reconcile, hg, ha, hd, hfs2, hsp]
          rw [heq] at hrec
          simp only [Option.some.injEq, Prod.mk.injEq] at hrec
          obtain ⟨_, _, htr⟩ := hrec
          rw [← htr] at hpatch
          simp only [List.mem_cons] at hpatch
          rcases hpatch with hpatch | hpatch
          · exact absurd hpatch (by simp)
          · exact absurd hpatch (hnopatch _)
        | ok u =>
          cases u
          have hs : Event.evJobSucceeded (jobNameOf d) ∈ trs := hsucc rfl
          by_cases hfc : env.fileCreateOk = true
          · have heq : reconcile env p st =
                some (env.patchResult,
                  { fs := filePathOf d :: st.fs, cluster := cl2,
                    metrics := { st.metrics with
                      cacheMiss := st.metrics.cacheMiss + 1,
                      warmupObs := st.metrics.warmupObs + 1 } },
                  (Event.evCacheMiss (filePathOf d) ::
                    (trs ++ [Event.evMarkerCreated (filePathOf d)])) ++
                    [Event.evPatchIssued (p.name.getD "")]) := by
              simp [reconcile, hg, ha, hd, hfs2, hsp, hfc, issuePatch]
            rw [heq] at hrec
            simp only [Option.some.injEq, Prod.mk.injEq] at hrec
            obtain ⟨h1, h2, h3⟩ := hrec
            constructor
            · right
              rw [← h3]
              simp only [List.mem_append, List.mem_cons]
              tauto
            · left
              rw [← h2]
              simp [fsHas]
          · have hfc2 : env.fileCreateOk = false := by
              revert hfc
              cases env.fileCreateOk <;> simp
            have heq : reconcile env p st =
                some (env.patchResult,
                  { fs := st.fs, cluster := cl2,
                    metrics := { st.metrics with
                      cacheMiss := st.metrics.cacheMiss + 1,
                      warmupObs := st.metrics.warmupObs + 1 } },
                  (Event.evCacheMiss (filePathOf d) :: trs) ++
                    [Event.evPatchIssued (p.name.getD "")]) := by
              simp [reconcile, hg, ha, hd, hfs2, hsp, hfc2, issuePatch]
            rw [heq] at hrec
            simp only [Option.some.injEq, Prod.mk.injEq] at hrec
            obtain ⟨h1, h2, h3⟩ := hrec
            constructor
            · right
              rw [← h3]
              simp only [List.mem_append, List.mem_cons]
              tauto
            · right
              exact hfc2

/-- Witness for C1's amended theorem at the warm-hit scenario. -/
theorem c1_patch_only_after_hit_or_success_witness :
    (Event.evCacheHit (filePathOf "s3://models/m1") ∈
        ([Event.evCacheHit "/tmp/models-m1", Event.evPatchIssued "w1"] : List Event)
      ∨ Event.evJobSucceeded (jobNameOf "s3://models/m1") ∈
        ([Event.evCacheHit "/tmp/models-m1", Event.evPatchIssued "w1"] : List Event))
    ∧ (fsHas stWarmAfter.fs (filePathOf "s3://models/m1") = true
      ∨ envCold.fileCreateOk = false) :=
  c1_patch_only_after_hit_or_success envCold podW1 stWarm
    [(datasetKey, "s3://models/m1")] "s3://models/m1"
    (Except.ok ()) stWarmAfter
    [Event.evCacheHit "/tmp/models-m1", Event.evPatchIssued "w1"]
    rfl rfl (by decide) (by decide)

/-- Claim C1, counterexample: the patch is NOT issued only when a Present
entry exists at the moment of the patch call.  In a cache-miss run whose
fetch job succeeds but whose marker-file write fails (the code ignores
the write's result), the patch is issued while no file exists at the
cache path. -/
theorem c1_patch_without_present_entry :
    (reconcile envNoMarker podC1 stEmpty).map (fun r => r.2.2) =
      some [Event.evCacheMiss "/tmp/c1-data", Event.evJobCreated "fetcher-c1-data",
            Event.evJobSucceeded "fetcher-c1-data", Event.evPatchIssued "wc1"]
    ∧ (reconcile envNoMarker podC1 stEmpty).map (fun r => fsHas r.2.1.fs "/tmp/c1-data") =
      some false := by
  constructor
  · decide
  · decide

/-- Claim C6 as amended: the job name is a pure function of the cache
key and the pre-flight GET decides create-vs-adopt, so two sequential
`ensure` invocations for the same cache key starting from a cluster
without that job leave at most one such job in the cluster, and every
job-creation event names `fetcher-<cache_key>`.  (An AlreadyExists error
on create is NOT tolerated as adoption; see the counterexample.) -/
theorem c6_ensure_twice_at_most_one_job (env1 env2 : FetchEnv) (fuel1 fuel2 : Nat)
    (cluster : List JobSpec) (d node1 node2 pn1 pn2 pu1 pu2 : String)
    (r1 : Except ApiError Unit) (cl1 : List JobSpec) (t1 : List Event)
    (r2 : Except ApiError Unit) (cl2 : List JobSpec) (t2 : List Event)
    (h0 : clusterHas cluster (jobNameOf d) = false)
    (h1 : spawnFetcherJob env1 fuel1 cluster d node1 pn1 pu1 = some (r1, cl1, t1))
    (h2 : spawnFetcherJob env2 fuel2 cl1 d node2 pn2 pu2 = some (r2, cl2, t2)) :
    countJobs cl2 (jobNameOf d) ≤ 1
    ∧ (∀ n, Event.evJobCreated n ∈ t1 ++ t2 → n = jobNameOf d) := by
  obtain ⟨hc1, hn1, _, _⟩ := spawn_shape env1 fuel1 cluster d node1 pn1 pu1 r1 cl1 t1 h1
  obtain ⟨hc2, hn2, _, _⟩ := spawn_shape env2 fuel2 cl1 d node2 pn2 pu2 r2 cl2 t2 h2
  constructor
  · have hcount0 : countJobs cluster (jobNameOf d) = 0 := clusterHas_false_countJobs _ _ h0
    rcases hc1 with hc1 | ⟨_, hc1⟩
    · subst hc1
      rcases hc2 with hc2 | ⟨_, hc2⟩
      · subst hc2
        omega
      · subst hc2
        rw [countJobs_cons_self]
        omega
    · subst hc1
      rcases hc2 with hc2 | ⟨hfalse, _⟩
      · subst hc2
        rw [countJobs_cons_self]
        omega
      · rw [clusterHas_cons_self] at hfalse
        exact absurd hfalse (by simp)
  · intro n hn
    rcases List.mem_append.mp hn with hn | hn
    · exact hn1 n hn
    · exact hn2 n hn

/-- Witness for C6's amended theorem: two concrete ensures of `s3://a/b`
from an empty cluster leave one job. -/
theorem c6_ensure_twice_at_most_one_job_witness :
    countJobs clusterC6b (jobNameOf "s3://a/b") ≤ 1
    ∧ (∀ n, Event.evJobCreated n ∈
        ([Event.evJobCreated (jobNameOf "s3://a/b"),
          Event.evJobSucceeded (jobNameOf "s3://a/b")] ++
         [Event.evJobSucceeded (jobNameOf "s3://a/b")]) → n = jobNameOf "s3://a/b") :=
  c6_ensure_twice_at_most_one_job fenvOk fenvOk 3 3 [] "s3://a/b" "n" "n" "w" "w" "u" "u"
    (Except.ok ()) clusterC6b
    [Event.evJobCreated (jobNameOf "s3://a/b"), Event.evJobSucceeded (jobNameOf "s3://a/b")]
    (Except.ok ()) clusterC6b
    [Event.evJobSucceeded (jobNameOf "s3://a/b")]
    (by decide) (by decide) (by decide)

/-- Claim C6, counterexample: an AlreadyExists error on create is not
treated as successful adoption.  When the pre-flight GET fails although
the job exists, the create is attempted, the cluster rejects the
duplicate name, and `spawn_fetcher_job` returns the AlreadyExists error
(propagated by `?` as a failure) instead of adopting the job. -/
theorem c6_already_exists_is_failure :
    spawnFetcherJob fenvSpurious 3 clusterC6 "s3://a" "n1" "p1" "u1" =
      some (.error .alreadyExists, clusterC6, []) := by
  decide

/-- Claim C8 as amended: a cache-miss reconciliation that completes
successfully creates the fetch job `fetcher-<cache_key>`, issues the
gate patch after the job success, and increments `cache_miss_total` by
one -- but `prewarm_success_total` is NOT incremented (the counter's
helper is never called by the reconciler; the metrics record below
leaves `prewarmSuccess` untouched). -/
theorem c8_cold_hit (env : ReconcileEnv) (p : Pod) (st : SysState)
    (anns : List (String × String)) (d : String)
    (hg : hasGate p = true) (ha : p.annotations = some anns)
    (hd : lookupAnn anns datasetKey = some d)
    (hfs : fsHas st.fs (filePathOf d) = false)
    (hcl : clusterHas st.cluster (jobNameOf d) = false)
    (hct : env.fetch.createTransient = false)
    (hpoll : pollLoop env.fetch.poll env.fetchFuel 0 = some (.ok ()))
    (hfc : env.fileCreateOk = true) :
    reconcile env p st =
      some (env.patchResult,
        { fs := filePathOf d :: st.fs,
          cluster := mkJobSpec d (nodeTargetOf p) (p.name.getD "") (p.uid.getD "") :: st.cluster,
          metrics := { st.metrics with
            cacheMiss := st.metrics.cacheMiss + 1,
            warmupObs := st.metrics.warmupObs + 1 } },
        [Event.evCacheMiss (filePathOf d), Event.evJobCreated (jobNameOf d),
         Event.evJobSucceeded (jobNameOf d), Event.evMarkerCreated (filePathOf d),
         Event.evPatchIssued (p.name.getD "")]) :=
  reconcile_cold_eq env p st anns d hg ha hd hfs hcl hct hpoll hfc

/-- Witness for C8's amended theorem at the cold-hit scenario of the
spec: pod `w1`, dataset `s3://models/m1`, fallback node `kind-worker`. -/
theorem c8_cold_hit_witness :
    reconcile envCold podW1 stEmpty =
      some (envCold.patchResult,
        { fs := filePathOf "s3://models/m1" :: stEmpty.fs,
          cluster := mkJobSpec "s3://models/m1" (nodeTargetOf podW1)
            (podW1.name.getD "") (podW1.uid.getD "") :: stEmpty.cluster,
          metrics := { stEmpty.metrics with
            cacheMiss := stEmpty.metrics.cacheMiss + 1,
            warmupObs := stEmpty.metrics.warmupObs + 1 } },
        [Event.evCacheMiss (filePathOf "s3://models/m1"),
         Event.evJobCreated (jobNameOf "s3://models/m1"),
         Event.evJobSucceeded (jobNameOf "s3://models/m1"),
         Event.evMarkerCreated (filePathOf "s3://models/m1"),
         Event.evPatchIssued (podW1.name.getD "")]) :=
  c8_cold_hit envCold podW1 stEmpty [(datasetKey, "s3://models/m1")] "s3://models/m1"
    (by decide) rfl rfl (by decide) (by decide) rfl (by decide) rfl

/-- Claim C8, counterexample: on the successful cold-hit run of the
spec's first scenario, `cache_miss_total` rises by one but
`prewarm_success_total` stays at zero -- the reconciler never increments
it (the `count_success` helper is dead code), so the claimed `+1` does
not happen. -/
theorem c8_prewarm_not_incremented :
    (reconcile envCold podW1 stEmpty).map (fun r => r.1) = some (Except.ok ())
    ∧ (reconcile envCold podW1 stEmpty).map (fun r => r.2.1.metrics.cacheMiss) = some 1
    ∧ (reconcile envCold podW1 stEmpty).map (fun r => r.2.1.metrics.prewarmSuccess) = some 0 := by
  refine ⟨?_, ?_, ?_⟩
  · decide
  · decide
  · decide

/-- Claim C10 as amended: on a successful cache-miss reconciliation
whose marker write succeeds, the marker is created after the job success
and strictly before the patch (the trace order below); the marker is in
the final filesystem whatever the patch result, so if the patch call
fails the marker persists and every subsequent reconciliation of a gated
workload with the same DID takes the hit path and creates no new job.
(When the marker write fails, no marker is created at all; see the
counterexample.) -/
theorem c10_marker_then_patch_then_hit (env : ReconcileEnv) (p : Pod) (st : SysState)
    (anns : List (String × String)) (d : String)
    (hg : hasGate p = true) (ha : p.annotations = some anns)
    (hd : lookupAnn anns datasetKey = some d)
    (hfs : fsHas st.fs (filePathOf d) = false)
    (hcl : clusterHas st.cluster (jobNameOf d) = false)
    (hct : env.fetch.createTransient = false)
    (hpoll : pollLoop env.fetch.poll env.fetchFuel 0 = some (.ok ()))
    (hfc : env.fileCreateOk = true) :
    reconcile env p st =
      some (env.patchResult, coldResultState p st d,
        [Event.evCacheMiss (filePathOf d), Event.evJobCreated (jobNameOf d),
         Event.evJobSucceeded (jobNameOf d), Event.evMarkerCreated (filePathOf d),
         Event.evPatchIssued (p.name.getD "")])
    ∧ fsHas (coldResultState p st d).fs (filePathOf d) = true
    ∧ (∀ (p2 : Pod) (env2 : ReconcileEnv) (anns2 : List (String × String)),
        hasGate p2 = true → p2.annotations = some anns2 →
        lookupAnn anns2 datasetKey = some d →
        reconcile env2 p2 (coldResultState p st d) =
          some (env2.patchResult,
            { coldResultState p st d with metrics :=
                { (coldResultState p st d).metrics with
                  cacheHit := (coldResultState p st d).metrics.cacheHit + 1 } },
            [Event.evCacheHit (filePathOf d), Event.evPatchIssued (p2.name.getD "")])) := by
  refine ⟨?_, ?_, ?_⟩
  · exact reconcile_cold_eq env p st anns d hg ha hd hfs hcl hct hpoll hfc
  · simp [coldResultState, fsHas]
  · intro p2 env2 anns2 hg2 ha2 hd2
    exact reconcile_hit_eq env2 p2 (coldResultState p st d) anns2 d hg2 ha2 hd2
      (by simp [coldResultState, fsHas])

/-- Witness for C10's amended theorem: concrete cache-miss run of
`s3://c10/d` whose patch returns a version conflict; the marker persists
and a re-reconciliation hits. -/
theorem c10_marker_then_patch_then_hit_witness :
    reconcile envConflict podC10 stEmpty =
      some (envConflict.patchResult, coldResultState podC10 stEmpty "s3://c10/d",
        [Event.evCacheMiss (filePathOf "s3://c10/d"), Event.evJobCreated (jobNameOf "s3://c10/d"),
         Event.evJobSucceeded (jobNameOf "s3://c10/d"), Event.evMarkerCreated (filePathOf "s3://c10/d"),
         Event.evPatchIssued (podC10.name.getD "")])
    ∧ fsHas (coldResultState podC10 stEmpty "s3://c10/d").fs (filePathOf "s3://c10/d") = true
    ∧ (∀ (p2 : Pod) (env2 : ReconcileEnv) (anns2 : List (String × String)),
        hasGate p2 = true → p2.annotations = some anns2 →
        lookupAnn anns2 datasetKey = some "s3://c10/d" →
        reconcile env2 p2 (coldResultState podC10 stEmpty "s3://c10/d") =
          some (env2.patchResult,
            { coldResultState podC10 stEmpty "s3://c10/d" with metrics :=
                { (coldResultState podC10 stEmpty "s3://c10/d").metrics with
                  cacheHit := (coldResultState podC10 stEmpty "s3://c10/d").metrics.cacheHit + 1 } },
            [Event.evCacheHit (filePathOf "s3://c10/d"),
             Event.evPatchIssued (p2.name.getD "")])) :=
  c10_marker_then_patch_then_hit envConflict podC10 stEmpty
    [(datasetKey, "s3://c10/d")] "s3://c10/d"
    (by decide) rfl rfl (by decide) (by decide) rfl (by decide) rfl

/-- Claim C10, counterexample: the marker is NOT created on every
cache-miss reconciliation.  When the marker-file write fails (its error
is ignored), the fetch succeeds, no marker-creation event occurs, the
patch is still issued, and the final filesystem lacks the marker -- so a
later reconciliation of the same DID would miss again. -/
theorem c10_no_marker_when_write_fails :
    (reconcile envNoMarker podC10 stEmpty).map (fun r => r.2.2) =
      some [Event.evCacheMiss "/tmp/c10-d", Event.evJobCreated "fetcher-c10-d",
            Event.evJobSucceeded "fetcher-c10-d", Event.evPatchIssued "w10"]
    ∧ (reconcile envNoMarker podC10 stEmpty).map (fun r => fsHas r.2.1.fs "/tmp/c10-d") =
      some false := by
  constructor
  · decide
  · decide

end KubeCache
